import Mathlib

/-!
# Verification of the AstroLumina star-dashboard pipeline

A shallow embedding of the data-shaping and chart-construction pipeline of the
AstroLumina repository (`src/data_processing.py`, `src/visualization.py`,
`app.py`), together with theorems settling the specification claims.

Modelling conventions:
* A pandas cell is `Cell`: a rational number, a string, or a missing value
  (`NaN`).  A DataFrame is `RawTable`, an ordered association list from column
  name to column (pandas keeps column order; `read_csv` guarantees equal
  column lengths, which theorems assume via explicit length hypotheses).
* Column access `df[c]` is `getCol`; a missing column raises `KeyError`,
  modelled as `Except.error`.  Column assignment `df[c] = v` is `setCol`
  (replace in place, or append a new column at the end, as pandas does).
* `pd.api.types.is_numeric_dtype` holds for a column read from a file exactly
  when every cell is numeric or missing (`isNumericDtype`).
* `Series.map(dict)` sends keys found in the dict to their value and
  everything else (including `NaN`) to `NaN` (`mapStarTypeCell`).
* `Series.value_counts()` drops missing values, counts the distinct remaining
  values, and sorts by descending count (`valueCounts`); the sort is modelled
  with a stable insertion sort by descending count (pandas does not specify
  the relative order of tied counts).
* `Series.unique()` returns the values in order of first occurrence,
  including a missing value if present (`uniqueFirst`).
* Elementwise comparison `series == v` is `matchesCell`: `NaN` compares
  unequal to everything (including `NaN`), and values of different kinds
  compare unequal.
* Chart builders return declarative chart descriptions (`BarChart`,
  `BoxTrace`, `HrChart`); purely presentational styling (fonts, margins,
  hover templates) is not modelled.  `create_star_type_bar_chart` also
  returns the frame as left behind by the call, since it may assign a new
  column to its argument.
-/

namespace Astro

/-- One cell of a DataFrame column: a numeric value, a string, or a missing
value (pandas `NaN`). -/
inductive Cell where
  | num (q : ℚ)
  | str (s : String)
  | null
deriving DecidableEq

/-- Whether a cell is the missing value. -/
def Cell.isNull : Cell → Bool
  | .null => true
  | _ => false

/-- A loaded DataFrame: named columns in pandas column order. -/
structure RawTable where
  cols : List (String × List Cell)
deriving DecidableEq

/-- Helper for `getCol`: look up the first column with the given name. -/
def getColList : List (String × List Cell) → String → Option (List Cell)
  | [], _ => none
  | c :: cs, name => if c.1 == name then some c.2 else getColList cs name

/-- `df[name]`: the first column with the given name, if any. -/
def getCol (t : RawTable) (name : String) : Option (List Cell) :=
  getColList t.cols name

/-- Helper for `setCol`: replace the named column, or append it at the end. -/
def setColList : List (String × List Cell) → String → List Cell → List (String × List Cell)
  | [], name, v => [(name, v)]
  | c :: cs, name, v => if c.1 == name then (name, v) :: cs else c :: setColList cs name v

/-- `df[name] = v`: in-place column assignment (replaces an existing column,
otherwise appends a new column at the end, as pandas does). -/
def setCol (t : RawTable) (name : String) (v : List Cell) : RawTable :=
  ⟨setColList t.cols name v⟩

/-- `pd.api.types.is_numeric_dtype`: a column read from a file has numeric
dtype exactly when every cell is a number or missing. -/
def isNumericDtype (col : List Cell) : Bool :=
  col.all (fun c => match c with
    | .num _ => true
    | .null => true
    | .str _ => false)

/-- The fixed lookup table `star_type_mapping` of `src/data_processing.py`
(`{0: Brown Dwarf, ..., 5: Hypergiants}`), as a partial map on the numeric
code. -/
def starTypeLabel (q : ℚ) : Option String :=
  if q = 0 then some "Brown Dwarf"
  else if q = 1 then some "Red Dwarf"
  else if q = 2 then some "White Dwarf"
  else if q = 3 then some "Main Sequence"
  else if q = 4 then some "Supergiants"
  else if q = 5 then some "Hypergiants"
  else none

/-- `Series.map(star_type_mapping)` on one cell: a numeric key found in the
dict goes to its label, everything else (missing values, out-of-range codes,
non-numeric cells) goes to `NaN`. -/
def mapStarTypeCell : Cell → Cell
  | .num q =>
    match starTypeLabel q with
    | some s => .str s
    | none => .null
  | _ => .null

/-- `load_star_data` of `src/data_processing.py`, applied to the parsed file
contents: read the table, and if the `Star type` column has numeric dtype,
replace it by its image under `star_type_mapping`.  Accessing the `Star type`
column of a file that lacks it raises at load time (`Except.error`); no other
column is touched by the loader. -/
def loadStarData (t : RawTable) : Except String RawTable :=
  match getCol t "Star type" with
  | none => Except.error "LoadError: missing column Star type"
  | some col =>
    if isNumericDtype col then
      Except.ok (setCol t "Star type" (col.map mapStarTypeCell))
    else
      Except.ok t

/-- The `try/except` around `get_data()` in `app.py`: the session halts
before invoking any chart builder exactly when `load_star_data` raises. -/
def appHaltsBeforeCharts (t : RawTable) : Bool :=
  match loadStarData t with
  | Except.ok _ => false
  | Except.error _ => true

/-! ## Aggregation: `value_counts` and the percentage computation -/

/-- Stable sort by descending count, modelling the descending order of
`Series.value_counts()` (pandas does not specify the relative order of tied
counts; a deterministic stable sort is one admissible realisation). -/
def countsDesc (l : List (Cell × Nat)) : List (Cell × Nat) :=
  l.insertionSort (fun a b => b.2 ≤ a.2)

/-- `Series.value_counts()`: drop missing values, count each remaining
distinct value, and order by descending count. -/
def valueCounts (col : List Cell) : List (Cell × Nat) :=
  countsDesc (((col.filter (fun c => !c.isNull)).dedup).map
    (fun v => (v, (col.filter (fun c => !c.isNull)).count v)))

/-- The denominator `counts['Count'].sum()` used by both bar-chart builders:
the sum of the per-category counts (i.e. the number of rows whose field value
is not missing). -/
def totalCount (col : List Cell) : Nat :=
  ((valueCounts col).map (fun p => p.2)).sum

/-- The `(category, count, percentage)` rows behind the bar charts
(`visualization.py` lines 31–37 and 69–75):
`percentage = Count / Count.sum() * 100`. -/
def barData (col : List Cell) : List (Cell × Nat × ℚ) :=
  (valueCounts col).map
    (fun p => (p.1, p.2, ((p.2 : ℚ) / (totalCount col : ℚ)) * 100))

/-- `np.round` to 2 decimal places (round half to even), applied to the
percentages by `create_star_color_bar_chart`. -/
def roundHalfEven (q : ℚ) : ℤ :=
  if q - ⌊q⌋ = 1 / 2 then (if 2 ∣ ⌊q⌋ then ⌊q⌋ else ⌊q⌋ + 1) else round q

/-- `.round(2)` on a percentage. -/
def round2 (q : ℚ) : ℚ := (roundHalfEven (q * 100) : ℚ) / 100

/-! ## Chart builders -/

/-- A category bar chart description: the ordered `(category, count,
percentage)` bars. -/
structure BarChart where
  bars : List (Cell × Nat × ℚ)
  title : String
deriving DecidableEq

/-- `create_star_type_bar_chart`.  If the frame has no `Star type label`
column and `Star type` has numeric dtype, the builder first assigns a new
`Star type label` column to the frame (an in-place mutation of its argument)
and counts that column; otherwise it counts `Star type`.  The result is the
frame as left behind by the call together with the chart. -/
def createStarTypeBarChart (t : RawTable) : Except String (RawTable × BarChart) :=
  match getCol t "Star type label" with
  | none =>
    match getCol t "Star type" with
    | none => Except.error "KeyError: Star type"
    | some col =>
      if isNumericDtype col then
        Except.ok (setCol t "Star type label" (col.map mapStarTypeCell),
          { bars := barData (col.map mapStarTypeCell), title := "Star Count by Type" })
      else
        Except.ok (t, { bars := barData col, title := "Star Count by Type" })
  | some _ =>
    match getCol t "Star type" with
    | none => Except.error "KeyError: Star type"
    | some col => Except.ok (t, { bars := barData col, title := "Star Count by Type" })

/-- `create_star_color_bar_chart`: value counts of `Star color` with the
percentage rounded to 2 decimals.  The builder only reads the frame. -/
def createStarColorBarChart (t : RawTable) : Except String BarChart :=
  match getCol t "Star color" with
  | none => Except.error "KeyError: Star color"
  | some col =>
    Except.ok { bars := (barData col).map (fun b => (b.1, b.2.1, round2 b.2.2)),
                title := "Count of Stars by Color" }

/-- The fixed `Star type` → display-color lookup table of `create_boxplots`. -/
def starTypeColors : List (String × String) :=
  [("Brown Dwarf", "brown"), ("Red Dwarf", "red"), ("White Dwarf", "lightskyblue"),
   ("Main Sequence", "yellow"), ("Supergiants", "blue"), ("Hypergiants", "orange")]

/-- `colors.get(star_type, 'gray')`: the dict has string keys, so any
non-string category — and any string absent from the table — falls back to
gray. -/
def typeColor (u : Cell) : String :=
  match u with
  | .str s => (((starTypeColors.find? (fun p => p.1 == s)).map (fun p => p.2)).getD "gray")
  | _ => "gray"

/-- Elementwise `series == value` comparison: missing values compare unequal
to everything (`NaN != NaN`), and values of different kinds compare
unequal. -/
def matchesCell (c u : Cell) : Bool :=
  match c, u with
  | .num a, .num b => a == b
  | .str a, .str b => a == b
  | _, _ => false

/-- Helper for `uniqueFirst`: accumulate the first occurrence of each value
(the accumulator is kept reversed). -/
def uniqueFirstAux (acc : List Cell) : List Cell → List Cell
  | [] => acc.reverse
  | c :: cs => if acc.contains c then uniqueFirstAux acc cs else uniqueFirstAux (c :: acc) cs

/-- `Series.unique()`: the distinct values in order of first occurrence,
including one missing value if any row is missing. -/
def uniqueFirst (col : List Cell) : List Cell :=
  uniqueFirstAux [] col

/-- One `go.Box` trace of the box-plot grid. -/
structure BoxTrace where
  name : Cell
  ys : List Cell
  markerColor : String
  showlegend : Bool
deriving DecidableEq

/-- The `go.Box` trace added for one star type `u`: its `y` values are the
feature values of the rows whose star type matches `u` (missing values
included), its color comes from `starTypeColors` with gray fallback, and the
legend is shown only in the first cell. -/
def mkBoxTrace (stCol featCol : List Cell) (firstCell : Bool) (u : Cell) : BoxTrace :=
  { name := u,
    ys := (stCol.zip featCol).filterMap
      (fun p => if matchesCell p.1 u then some p.2 else none),
    markerColor := typeColor u,
    showlegend := firstCell }

/-- The traces added to one subplot cell of `create_boxplots`: for each star
type in first-occurrence order, the rows matching the type are selected, a
type matching no row (`len(subset) == 0`, which happens exactly for a missing
star-type value since `NaN != NaN`) is skipped, and otherwise the box trace
is added. -/
def boxTracesFor (stCol featCol : List Cell) (firstCell : Bool) : List BoxTrace :=
  ((uniqueFirst stCol).filter
      (fun u => !((stCol.countP (fun c => matchesCell c u)) == 0))).map
    (mkBoxTrace stCol featCol firstCell)

/-- The four numeric features of the box-plot grid and scatter matrix, in
their fixed order. -/
def numericFeatures : List String :=
  ["Temperature (K)", "Luminosity(L/Lo)", "Radius(R/Ro)", "Absolute magnitude(Mv)"]

/-- `create_boxplots`: the 2×2 grid as the list of its four cells in feature
order (Temperature, Luminosity, Radius, Absolute magnitude).  Only the first
cell shows the legend. -/
def createBoxplots (t : RawTable) : Except String (List (List BoxTrace)) :=
  match getCol t "Star type" with
  | none => Except.error "KeyError: Star type"
  | some stCol =>
    match getCol t "Temperature (K)", getCol t "Luminosity(L/Lo)",
        getCol t "Radius(R/Ro)", getCol t "Absolute magnitude(Mv)" with
    | some c0, some c1, some c2, some c3 =>
      Except.ok [boxTracesFor stCol c0 true, boxTracesFor stCol c1 false,
        boxTracesFor stCol c2 false, boxTracesFor stCol c3 false]
    | _, _, _, _ => Except.error "KeyError: numeric feature column"

/-- A fixed labelled reference point of the HR diagram (the Sun, famous
stars). -/
structure RefPoint where
  name : String
  x : ℚ
  y : ℚ
deriving DecidableEq

/-- An axis of the HR diagram: its title and whether the layout sets
`autorange = reversed`. -/
structure HrAxis where
  title : String
  autorangeReversed : Bool
deriving DecidableEq

/-- An HR-diagram chart description: one data point per catalog row at
(temperature, absolute magnitude), the fixed Sun reference point, optional
further reference stars and main-sequence line, and the two axes. -/
structure HrChart where
  points : List (Cell × Cell)
  sun : RefPoint
  famousStars : List RefPoint
  mainSequenceLine : List (ℚ × ℚ)
  xaxis : HrAxis
  yaxis : HrAxis
deriving DecidableEq

/-- The HR chart shared by both HR builders: one point per row at
`(temperature, magnitude)`, the Sun at (5778, 4.83), the given reference
stars and main-sequence line, and both axes reversed
(`autorange = reversed`). -/
def mkHrChart (tc mc : List Cell) (fs : List RefPoint) (ms : List (ℚ × ℚ)) : HrChart :=
  { points := tc.zip mc,
    sun := { name := "Sun", x := 5778, y := 4.83 },
    famousStars := fs,
    mainSequenceLine := ms,
    xaxis := { title := "Temperature (K)", autorangeReversed := true },
    yaxis := { title := "Absolute Magnitude (Mv)", autorangeReversed := true } }

/-- `create_hr_diagram`: a scatter of `Temperature (K)` against
`Absolute magnitude(Mv)` (one point per row, colored by `Star type`), the Sun
overlaid at (5778, 4.83), and both axes reversed. -/
def createHrDiagram (t : RawTable) : Except String HrChart :=
  match getCol t "Temperature (K)", getCol t "Absolute magnitude(Mv)", getCol t "Star type" with
  | some tc, some mc, some _ => Except.ok (mkHrChart tc mc [] [])
  | _, _, _ => Except.error "KeyError: HR diagram column"

/-- The famous-star reference points of `create_hr_diagram_improved`. -/
def famousStarPoints : List RefPoint :=
  [{ name := "Sirius", x := 9940, y := 1.42 },
   { name := "Betelgeuse", x := 3600, y := -5.85 },
   { name := "Vega", x := 9602, y := 0.58 },
   { name := "Proxima Centauri", x := 3042, y := 15.6 }]

/-- The simplified main-sequence reference line of
`create_hr_diagram_improved`. -/
def mainSequencePoints : List (ℚ × ℚ) :=
  [(30000, -5), (20000, -2.5), (10000, 0), (7500, 2), (6000, 4), (5000, 6), (3500, 9)]

/-- `create_hr_diagram_improved`: like `create_hr_diagram`, plus the famous
reference stars and the main-sequence line; both axes are again reversed. -/
def createHrDiagramImproved (t : RawTable) : Except String HrChart :=
  match getCol t "Temperature (K)", getCol t "Absolute magnitude(Mv)", getCol t "Star type" with
  | some tc, some mc, some _ =>
    Except.ok (mkHrChart tc mc famousStarPoints mainSequencePoints)
  | _, _, _ => Except.error "KeyError: HR diagram column"

/-- A pairwise scatter-matrix description: the four numeric dimensions and
the field used for point colors. -/
structure ScatterMatrixChart where
  dimensions : List String
  colorField : String
deriving DecidableEq

/-- `create_scatter_matrix`: a scatter matrix over the four numeric features,
colored by `Spectral Class`.  The builder only reads the frame. -/
def createScatterMatrix (t : RawTable) : Except String ScatterMatrixChart :=
  match getCol t "Temperature (K)", getCol t "Luminosity(L/Lo)",
      getCol t "Radius(R/Ro)", getCol t "Absolute magnitude(Mv)",
      getCol t "Spectral Class" with
  | some _, some _, some _, some _, some _ =>
    Except.ok { dimensions := numericFeatures, colorField := "Spectral Class" }
  | _, _, _, _, _ => Except.error "KeyError: scatter matrix column"

/-- A concrete two-star catalog (the spec's scenario: a Main Sequence star at
temperature 5778 and magnitude 4.83, and a Red Dwarf at 3000 and 12), used by
the HR-diagram witnesses. -/
def hrWitnessTable : RawTable :=
  ⟨[("Temperature (K)", [Cell.num 5778, Cell.num 3000]),
    ("Absolute magnitude(Mv)", [Cell.num 4.83, Cell.num 12]),
    ("Star type", [Cell.str "Main Sequence", Cell.str "Red Dwarf"])]⟩

/-- The chart `create_hr_diagram` produces on `hrWitnessTable`. -/
def hrWitnessChart : HrChart :=
  mkHrChart [Cell.num 5778, Cell.num 3000] [Cell.num 4.83, Cell.num 12] [] []

/-- The chart `create_hr_diagram_improved` produces on `hrWitnessTable`. -/
def hrWitnessChartImproved : HrChart :=
  mkHrChart [Cell.num 5778, Cell.num 3000] [Cell.num 4.83, Cell.num 12]
    famousStarPoints mainSequencePoints

instance : IsTotal (Cell × Nat) (fun a b => b.2 ≤ a.2) :=
  ⟨fun a b => Nat.le_total b.2 a.2⟩

instance : IsTrans (Cell × Nat) (fun a b => b.2 ≤ a.2) :=
  ⟨fun _ _ _ h h' => Nat.le_trans h' h⟩

/-! ## Association-list lemmas for `getCol` / `setCol` -/

theorem setColList_get_self (cs : List (String × List Cell)) (name : String) (v : List Cell) :
    getColList (setColList cs name v) name = some v := by
  induction cs with
  | nil => simp [setColList, getColList]
  | cons c cs ih =>
    by_cases h : c.1 = name
    · simp [setColList, getColList, h]
    · simp [setColList, getColList, h, ih]

theorem getCol_setCol (t : RawTable) (name : String) (v : List Cell) :
    getCol (setCol t name v) name = some v :=
  setColList_get_self t.cols name v

theorem setColList_get_other (cs : List (String × List Cell)) (name other : String)
    (v : List Cell) (h : name ≠ other) :
    getColList (setColList cs name v) other = getColList cs other := by
  induction cs with
  | nil => simp [setColList, getColList, h]
  | cons c cs ih =>
    by_cases hc : c.1 = name
    · subst hc
      simp [setColList, getColList, h, Ne.symm h]
    · by_cases ho : c.1 = other
      · simp [setColList, getColList, hc, ho, Ne.symm h]
      · simp [setColList, getColList, hc, ho, ih]

theorem getCol_setCol_other (t : RawTable) (name other : String) (v : List Cell)
    (h : name ≠ other) : getCol (setCol t name v) other = getCol t other :=
  setColList_get_other t.cols name other v h

theorem setColList_setColList (cs : List (String × List Cell)) (name : String)
    (v w : List Cell) : setColList (setColList cs name v) name w = setColList cs name w := by
  induction cs with
  | nil => simp [setColList]
  | cons c cs ih =>
    by_cases h : c.1 = name
    · simp [setColList, h]
    · simp [setColList, if_neg (by simpa using h), ih]

theorem setCol_setCol (t : RawTable) (name : String) (v w : List Cell) :
    setCol (setCol t name v) name w = setCol t name w :=
  congrArg RawTable.mk (setColList_setColList t.cols name v w)

/-! ## Claim C1: numeric-coded and label-coded star types load identically -/

theorem isNumericDtype_map_num (codes : List ℚ) :
    isNumericDtype (codes.map Cell.num) = true := by
  induction codes with
  | nil => rfl
  | cons q qs ih =>
    simp [isNumericDtype] at ih ⊢

/-- C1.  For any table `t`, any list of numeric star-type codes all in range
0–5, and any downstream consumer `f`: loading the table whose `Star type`
column holds the numeric codes and loading the same table with the codes
already replaced by their label strings produce the *same* loaded frame
(whose `Star type` column is the label sequence), hence `f` — in particular
every aggregation and chart builder — produces identical output on both.
Confirmed. -/
theorem star_type_normalization_equivalence {α : Type} (f : Except String RawTable → α)
    (t : RawTable) (codes : List ℚ)
    (hin : ∀ q ∈ codes, (starTypeLabel q).isSome) :
    loadStarData (setCol t "Star type" (codes.map Cell.num)) =
      Except.ok (setCol t "Star type" (codes.map (fun q => mapStarTypeCell (Cell.num q)))) ∧
    loadStarData (setCol t "Star type" (codes.map (fun q => mapStarTypeCell (Cell.num q)))) =
      Except.ok (setCol t "Star type" (codes.map (fun q => mapStarTypeCell (Cell.num q)))) ∧
    f (loadStarData (setCol t "Star type" (codes.map Cell.num))) =
      f (loadStarData (setCol t "Star type" (codes.map (fun q => mapStarTypeCell (Cell.num q))))) ∧
    getCol (setCol t "Star type" (codes.map (fun q => mapStarTypeCell (Cell.num q)))) "Star type" =
      some (codes.map (fun q => mapStarTypeCell (Cell.num q))) := by
  have hnum : loadStarData (setCol t "Star type" (codes.map Cell.num)) =
      Except.ok (setCol t "Star type" (codes.map (fun q => mapStarTypeCell (Cell.num q)))) := by
    simp [loadStarData, getCol_setCol, isNumericDtype_map_num, setCol_setCol, List.map_map,
      Function.comp_def]
  have hlab : loadStarData (setCol t "Star type" (codes.map (fun q => mapStarTypeCell (Cell.num q)))) =
      Except.ok (setCol t "Star type" (codes.map (fun q => mapStarTypeCell (Cell.num q)))) := by
    cases codes with
    | nil => simp [loadStarData, getCol_setCol, isNumericDtype, setCol_setCol]
    | cons q qs =>
      have hq := hin q (by simp)
      obtain ⟨s, hs⟩ := Option.isSome_iff_exists.mp hq
      have hstr : mapStarTypeCell (Cell.num q) = Cell.str s := by
        simp [mapStarTypeCell, hs]
      have hnn : isNumericDtype
          (mapStarTypeCell (Cell.num q) :: qs.map (fun r => mapStarTypeCell (Cell.num r))) = false := by
        simp [isNumericDtype, hstr]
      simp [loadStarData, getCol_setCol, hnn]
  refine ⟨hnum, hlab, ?_, getCol_setCol _ _ _⟩
  rw [hnum, hlab]

/-- Witness for C1, at the concrete code list `[3, 1]` and the empty table,
with the identity consumer. -/
theorem star_type_normalization_equivalence_witness :
    loadStarData (setCol ⟨[]⟩ "Star type" ([(3 : ℚ), 1].map Cell.num)) =
      Except.ok (setCol ⟨[]⟩ "Star type"
        ([(3 : ℚ), 1].map (fun q => mapStarTypeCell (Cell.num q)))) :=
  (star_type_normalization_equivalence id ⟨[]⟩ [3, 1] (by decide)).1

/-! ## Claim C5: out-of-range numeric star-type codes -/

/-- C5 counterexample.  Loading a file whose numeric `Star type` column holds
the out-of-range code 6 does **not** fail with a `LoadError`: the load
succeeds and the code is silently mapped to a missing value.  This refutes
the claim that out-of-range codes are treated as a load error. -/
theorem out_of_range_code_loads_counterexample :
    loadStarData ⟨[("Star type", [Cell.num 6])]⟩ =
      Except.ok ⟨[("Star type", [Cell.null])]⟩ := by rfl

/-- C5 amended.  For every table whose `Star type` column is a list of
numeric codes, loading succeeds (never a `LoadError`), and every code outside
0–5 is silently mapped to the missing value (no label), because
`Series.map` sends keys absent from `star_type_mapping` to `NaN`. -/
theorem out_of_range_code_amended (t : RawTable) (codes : List ℚ)
    (hcol : getCol t "Star type" = some (codes.map Cell.num)) :
    loadStarData t =
      Except.ok (setCol t "Star type" ((codes.map Cell.num).map mapStarTypeCell)) ∧
    (∀ q : ℚ, starTypeLabel q = none → mapStarTypeCell (Cell.num q) = Cell.null) := by
  constructor
  · simp [loadStarData, hcol, isNumericDtype_map_num]
  · intro q hq
    simp [mapStarTypeCell, hq]

/-- Witness for C5 amended, at the concrete one-row table with code 6. -/
theorem out_of_range_code_amended_witness :
    loadStarData ⟨[("Star type", [Cell.num 6])]⟩ =
      Except.ok (setCol ⟨[("Star type", [Cell.num 6])]⟩ "Star type"
        ([Cell.num 6].map mapStarTypeCell)) ∧
    mapStarTypeCell (Cell.num 6) = Cell.null :=
  ⟨(out_of_range_code_amended ⟨[("Star type", [Cell.num 6])]⟩ [6] rfl).1,
    (out_of_range_code_amended ⟨[("Star type", [Cell.num 6])]⟩ [6] rfl).2 6 (by decide)⟩

/-! ## Claim C3: a missing `Star color` column and the load-time contract -/

/-- C3 counterexample.  A file missing the `Star color` column does **not**
fail with a `LoadError`: `load_star_data` only touches `Star type`, so the
load succeeds and the app does not halt — chart builders are invoked for the
session.  This refutes the claim. -/
theorem missing_star_color_loads_counterexample :
    loadStarData ⟨[("Star type", [Cell.num 3])]⟩ =
      Except.ok ⟨[("Star type", [Cell.str "Main Sequence"])]⟩ ∧
    appHaltsBeforeCharts ⟨[("Star type", [Cell.num 3])]⟩ = false :=
  ⟨rfl, rfl⟩

/-- C3 amended.  The loader validates no required columns: it fails at load
time only when `Star type` itself is absent.  A table missing `Star color`
loads successfully, and the failure surfaces only later, when
`create_star_color_bar_chart` is invoked on the loaded frame. -/
theorem missing_star_color_amended (t : RawTable) (h : getCol t "Star color" = none) :
    (getCol t "Star type" = none →
      loadStarData t = Except.error "LoadError: missing column Star type") ∧
    (∀ t', loadStarData t = Except.ok t' →
      createStarColorBarChart t' = Except.error "KeyError: Star color") := by
  constructor
  · intro hst
    simp [loadStarData, hst]
  · intro t' ht'
    unfold loadStarData at ht'
    cases hst : getCol t "Star type" with
    | none => rw [hst] at ht'; exact absurd ht' (by simp)
    | some col =>
      rw [hst] at ht'
      by_cases hn : isNumericDtype col = true
      · simp [hn] at ht'
        subst ht'
        have hcolor : getCol (setCol t "Star type" (col.map mapStarTypeCell)) "Star color" = none := by
          rw [getCol_setCol_other _ _ _ _ (by decide)]
          exact h
        simp [createStarColorBarChart, hcolor]
      · simp [hn] at ht'
        subst ht'
        simp [createStarColorBarChart, h]

/-- Witness for C3 amended: a concrete table with a label-valued `Star type`
and no `Star color` loads to itself, and the color-chart builder then fails
on it. -/
theorem missing_star_color_amended_witness :
    createStarColorBarChart ⟨[("Star type", [Cell.str "Main Sequence"])]⟩ =
      Except.error "KeyError: Star color" :=
  (missing_star_color_amended ⟨[("Star type", [Cell.str "Main Sequence"])]⟩ rfl).2
    ⟨[("Star type", [Cell.str "Main Sequence"])]⟩ rfl

/-! ## Claim C4: chart builders and frame mutation -/

/-- C4 counterexample.  On a catalog whose `Star type` column is numeric,
`create_star_type_bar_chart` mutates the frame: it assigns a new
`Star type label` column, so the frame after the call differs from the frame
before it.  This refutes the claim that no builder ever changes the
catalog. -/
theorem builder_mutates_frame_counterexample :
    (createStarTypeBarChart ⟨[("Star type", [Cell.num 3])]⟩).map (fun p => p.1) =
      Except.ok ⟨[("Star type", [Cell.num 3]), ("Star type label", [Cell.str "Main Sequence"])]⟩ ∧
    (⟨[("Star type", [Cell.num 3]), ("Star type label", [Cell.str "Main Sequence"])]⟩ : RawTable) ≠
      ⟨[("Star type", [Cell.num 3])]⟩ :=
  ⟨rfl, by decide⟩

/-- C4 amended.  `create_star_type_bar_chart` adds a `Star type label` column
to the frame exactly when the frame lacks that column and `Star type` has
numeric dtype; whenever that condition fails — in particular on any catalog
whose `Star type` is already in label form, as `load_star_data` produces from
in-range data — the frame is returned unchanged.  The other four builders
(`create_star_color_bar_chart`, `create_boxplots`, `create_hr_diagram`,
`create_hr_diagram_improved`, `create_scatter_matrix`) only read the frame:
their embeddings return a chart description and no frame. -/
theorem builder_mutation_amended (t : RawTable) (col : List Cell)
    (hcol : getCol t "Star type" = some col)
    (h : getCol t "Star type label" ≠ none ∨ isNumericDtype col = false) :
    (createStarTypeBarChart t).map (fun p => p.1) = Except.ok t := by
  rcases h with h | h
  · cases hlab : getCol t "Star type label" with
    | none => exact absurd hlab h
    | some v => simp [createStarTypeBarChart, hlab, hcol, Except.map]
  · cases hlab : getCol t "Star type label" with
    | none => simp [createStarTypeBarChart, hlab, hcol, h, Except.map]
    | some v => simp [createStarTypeBarChart, hlab, hcol, Except.map]

/-- Witness for C4 amended: a label-form catalog passes through
`create_star_type_bar_chart` with its frame unchanged. -/
theorem builder_mutation_amended_witness :
    (createStarTypeBarChart ⟨[("Star type", [Cell.str "Red Dwarf"])]⟩).map (fun p => p.1) =
      Except.ok ⟨[("Star type", [Cell.str "Red Dwarf"])]⟩ :=
  builder_mutation_amended ⟨[("Star type", [Cell.str "Red Dwarf"])]⟩
    [Cell.str "Red Dwarf"] rfl (Or.inr rfl)

/-! ## Lemmas on `value_counts` and the percentages -/

theorem valueCounts_perm (col : List Cell) :
    List.Perm (valueCounts col)
      (((col.filter (fun c => !c.isNull)).dedup).map
        (fun v => (v, (col.filter (fun c => !c.isNull)).count v))) :=
  List.perm_insertionSort _ _

theorem totalCount_eq_filter_length (col : List Cell) :
    totalCount col = (col.filter (fun c => !c.isNull)).length := by
  unfold totalCount
  have hp := ((valueCounts_perm col).map (fun p : Cell × Nat => p.2)).sum_eq
  rw [hp, List.map_map]
  simpa [Function.comp_def] using
    List.sum_map_count_dedup_eq_length (col.filter (fun c => !c.isNull))

theorem totalCount_pos (col : List Cell) (h : ∃ c ∈ col, c.isNull = false) :
    0 < totalCount col := by
  obtain ⟨c, hc, hnn⟩ := h
  rw [totalCount_eq_filter_length]
  have hm : c ∈ col.filter (fun x => !x.isNull) :=
    List.mem_filter.mpr ⟨hc, by simp [hnn]⟩
  exact List.length_pos.mpr (List.ne_nil_of_mem hm)

theorem mem_valueCounts_nonNull (col : List Cell) (p : Cell × Nat)
    (hp : p ∈ valueCounts col) : p.1.isNull = false := by
  have hp' := (valueCounts_perm col).mem_iff.mp hp
  obtain ⟨v, hv, rfl⟩ := List.mem_map.mp hp'
  have hvf : v ∈ col.filter (fun c => !c.isNull) := List.mem_dedup.mp hv
  simpa using (List.mem_filter.mp hvf).2

theorem barData_pct_sum (col : List Cell) (h : ∃ c ∈ col, c.isNull = false) :
    ((barData col).map (fun b => b.2.2)).sum = 100 := by
  have hpos : 0 < totalCount col := totalCount_pos col h
  have hT : ((totalCount col : ℕ) : ℚ) ≠ 0 :=
    Nat.cast_ne_zero.mpr (Nat.pos_iff_ne_zero.mp hpos)
  unfold barData
  rw [List.map_map]
  have h1 : ((fun b : Cell × Nat × ℚ => b.2.2) ∘
      (fun p : Cell × Nat => (p.1, p.2, ((p.2 : ℚ) / (totalCount col : ℚ)) * 100))) =
      fun p : Cell × Nat => ((p.2 : ℚ) / (totalCount col : ℚ)) * 100 := rfl
  rw [h1, List.sum_map_mul_right (valueCounts col)
    (fun p : Cell × Nat => ((p.2 : ℚ) / (totalCount col : ℚ))) 100]
  have h2 : (fun p : Cell × Nat => ((p.2 : ℚ) / (totalCount col : ℚ))) =
      fun p : Cell × Nat => ((p.2 : ℚ)) * ((totalCount col : ℚ))⁻¹ := by
    funext p
    rw [div_eq_mul_inv]
  rw [h2, List.sum_map_mul_right (valueCounts col)
    (fun p : Cell × Nat => ((p.2 : ℕ) : ℚ)) ((totalCount col : ℚ))⁻¹]
  have h3 : ((valueCounts col).map (fun p : Cell × Nat => ((p.2 : ℕ) : ℚ))).sum =
      ((totalCount col : ℕ) : ℚ) := by
    have h4 : (valueCounts col).map (fun p : Cell × Nat => ((p.2 : ℕ) : ℚ)) =
        ((valueCounts col).map (fun p => p.2)).map (Nat.cast : ℕ → ℚ) := by
      rw [List.map_map]
      rfl
    rw [h4]
    exact (Nat.cast_list_sum _).symm
  rw [h3, mul_inv_cancel₀ hT, one_mul]

/-! ## Claim C2: percentages, missing values, and the 100% total -/

/-- C2 counterexample.  On a field column with a missing value (here the
star-type column `[Red Dwarf, Red Dwarf, Main Sequence, NaN]`, e.g. after an
out-of-range code), `value_counts()` silently drops the missing row: the
output has no `NaN` bucket, and the percentage denominator is the 3 non-null
rows, not the 4 rows of the catalog — the first bar gets 2/3·100 %, not the
claimed 2/4·100 %.  This refutes the all-rows/null-bucket part of the
claim. -/
theorem percentage_counterexample :
    (barData [Cell.str "Red Dwarf", Cell.str "Red Dwarf", Cell.str "Main Sequence",
        Cell.null]).map (fun b => b.1) =
      [Cell.str "Red Dwarf", Cell.str "Main Sequence"] ∧
    ([Cell.str "Red Dwarf", Cell.str "Red Dwarf", Cell.str "Main Sequence",
        Cell.null] : List Cell).length = 4 ∧
    totalCount [Cell.str "Red Dwarf", Cell.str "Red Dwarf", Cell.str "Main Sequence",
        Cell.null] = 3 ∧
    (barData [Cell.str "Red Dwarf", Cell.str "Red Dwarf", Cell.str "Main Sequence",
        Cell.null]).map (fun b => b.2.2) =
      [(((2 : ℕ) : ℚ) / ((3 : ℕ) : ℚ)) * 100, (((1 : ℕ) : ℚ) / ((3 : ℕ) : ℚ)) * 100] ∧
    (((2 : ℕ) : ℚ) / ((3 : ℕ) : ℚ)) * 100 ≠ (((2 : ℕ) : ℚ) / ((4 : ℕ) : ℚ)) * 100 :=
  ⟨by decide, rfl, by decide, rfl, by norm_num⟩

/-- C2 amended.  The percentage of each category is
`100 × count / (number of rows with a non-missing field value)`: rows whose
field value is missing are silently dropped by `value_counts()` and form no
bucket of their own.  Over the returned categories the (unrounded)
percentages still sum to exactly 100 whenever at least one row has a
non-missing value (`create_star_color_bar_chart` additionally rounds each
percentage to 2 decimals afterwards). -/
theorem percentage_sum_amended (t : RawTable) (col : List Cell)
    (hlab : getCol t "Star type label" = none)
    (hcol : getCol t "Star type" = some col)
    (hnum : isNumericDtype col = false)
    (h : ∃ c ∈ col, c.isNull = false) :
    createStarTypeBarChart t =
      Except.ok (t, { bars := barData col, title := "Star Count by Type" }) ∧
    ((barData col).map (fun b => b.2.2)).sum = 100 ∧
    (∀ b ∈ barData col, b.1.isNull = false) := by
  refine ⟨?_, barData_pct_sum col h, ?_⟩
  · simp [createStarTypeBarChart, hlab, hcol, hnum]
  · intro b hb
    obtain ⟨p, hp, rfl⟩ := List.mem_map.mp hb
    exact mem_valueCounts_nonNull col p hp

/-- Witness for C2 amended, on a concrete three-row label-form catalog. -/
theorem percentage_sum_amended_witness :
    ((barData [Cell.str "Red Dwarf", Cell.str "Red Dwarf",
        Cell.str "Main Sequence"]).map (fun b => b.2.2)).sum = 100 :=
  (percentage_sum_amended
    ⟨[("Star type", [Cell.str "Red Dwarf", Cell.str "Red Dwarf",
        Cell.str "Main Sequence"])]⟩
    [Cell.str "Red Dwarf", Cell.str "Red Dwarf", Cell.str "Main Sequence"]
    rfl rfl rfl ⟨Cell.str "Red Dwarf", by decide, rfl⟩).2.1

/-! ## Claim C7: bar order is non-increasing by count -/

theorem barData_counts_sorted (col : List Cell) :
    List.Sorted (fun a b : ℕ => b ≤ a) ((barData col).map (fun b => b.2.1)) := by
  have hs : List.Sorted (fun a b : Cell × Nat => b.2 ≤ a.2) (valueCounts col) :=
    List.sorted_insertionSort _ _
  have he : ((barData col).map (fun b => b.2.1)) = (valueCounts col).map (fun p => p.2) := by
    unfold barData
    rw [List.map_map]
    rfl
  rw [he]
  exact List.pairwise_map.mpr hs

/-- C7.  The bars of both category bar charts are ordered by non-increasing
count, and the order is deterministic: the builders are functions of the
counted column alone, so two tables whose relevant column agree produce
identical charts (in this model ties are broken by the stable sort's
first-encountered-first order; pandas likewise fixes some deterministic
order).  Confirmed. -/
theorem bar_order_descending (t u v : RawTable) :
    (∀ t' ch, createStarTypeBarChart t = Except.ok (t', ch) →
      List.Sorted (fun a b : ℕ => b ≤ a) (ch.bars.map (fun b => b.2.1))) ∧
    (∀ ch, createStarColorBarChart t = Except.ok ch →
      List.Sorted (fun a b : ℕ => b ≤ a) (ch.bars.map (fun b => b.2.1))) ∧
    (getCol u "Star color" = getCol v "Star color" →
      createStarColorBarChart u = createStarColorBarChart v) := by
  refine ⟨?_, ?_, ?_⟩
  · intro t' ch hch
    have hex : ∃ c, ch.bars = barData c := by
      unfold createStarTypeBarChart at hch
      cases hlab : getCol t "Star type label" with
      | none =>
        rw [hlab] at hch
        cases hst : getCol t "Star type" with
        | none => rw [hst] at hch; exact absurd hch (by simp)
        | some col =>
          rw [hst] at hch
          by_cases hn : isNumericDtype col = true
          · simp [hn] at hch
            exact ⟨col.map mapStarTypeCell, by rw [← hch.2]⟩
          · simp [hn] at hch
            exact ⟨col, by rw [← hch.2]⟩
      | some w =>
        rw [hlab] at hch
        cases hst : getCol t "Star type" with
        | none => rw [hst] at hch; exact absurd hch (by simp)
        | some col =>
          rw [hst] at hch
          simp at hch
          exact ⟨col, by rw [← hch.2]⟩
    obtain ⟨c, hc⟩ := hex
    rw [hc]
    exact barData_counts_sorted c
  · intro ch hch
    unfold createStarColorBarChart at hch
    cases hcc : getCol t "Star color" with
    | none => rw [hcc] at hch; exact absurd hch (by simp)
    | some col =>
      rw [hcc] at hch
      simp at hch
      rw [← hch]
      have he : (((barData col).map (fun b => (b.1, b.2.1, round2 b.2.2))).map
          (fun b => b.2.1)) = (barData col).map (fun b => b.2.1) := by
        rw [List.map_map]
        rfl
      rw [he]
      exact barData_counts_sorted col
  · intro h
    unfold createStarColorBarChart
    rw [h]

/-- Witness for C7: sortedness of both concrete bar charts and determinism on
two concrete tables agreeing on `Star color`. -/
theorem bar_order_descending_witness :
    List.Sorted (fun a b : ℕ => b ≤ a)
      ((barData [Cell.str "Red Dwarf"]).map (fun b => b.2.1)) ∧
    List.Sorted (fun a b : ℕ => b ≤ a)
      (((barData [Cell.str "Red", Cell.str "Blue", Cell.str "Red"]).map
        (fun b => (b.1, b.2.1, round2 b.2.2))).map (fun b => b.2.1)) ∧
    createStarColorBarChart ⟨[("Star color", [Cell.str "Red"])]⟩ =
      createStarColorBarChart
        ⟨[("Star color", [Cell.str "Red"]), ("Temperature (K)", [Cell.num 1])]⟩ :=
  ⟨(bar_order_descending
      ⟨[("Star type", [Cell.str "Red Dwarf"]),
        ("Star color", [Cell.str "Red", Cell.str "Blue", Cell.str "Red"])]⟩
      ⟨[("Star color", [Cell.str "Red"])]⟩
      ⟨[("Star color", [Cell.str "Red"]), ("Temperature (K)", [Cell.num 1])]⟩).1
      ⟨[("Star type", [Cell.str "Red Dwarf"]),
        ("Star color", [Cell.str "Red", Cell.str "Blue", Cell.str "Red"])]⟩
      ⟨barData [Cell.str "Red Dwarf"], "Star Count by Type"⟩ (by rfl),
   (bar_order_descending
      ⟨[("Star type", [Cell.str "Red Dwarf"]),
        ("Star color", [Cell.str "Red", Cell.str "Blue", Cell.str "Red"])]⟩
      ⟨[("Star color", [Cell.str "Red"])]⟩
      ⟨[("Star color", [Cell.str "Red"]), ("Temperature (K)", [Cell.num 1])]⟩).2.1
      ⟨(barData [Cell.str "Red", Cell.str "Blue", Cell.str "Red"]).map
        (fun b => (b.1, b.2.1, round2 b.2.2)), "Count of Stars by Color"⟩ (by rfl),
   (bar_order_descending
      ⟨[("Star type", [Cell.str "Red Dwarf"]),
        ("Star color", [Cell.str "Red", Cell.str "Blue", Cell.str "Red"])]⟩
      ⟨[("Star color", [Cell.str "Red"])]⟩
      ⟨[("Star color", [Cell.str "Red"]), ("Temperature (K)", [Cell.num 1])]⟩).2.2 rfl⟩

/-! ## Lemmas on `unique()` and the box-plot traces -/

theorem uniqueFirstAux_subset (l : List Cell) :
    ∀ (acc : List Cell), ∀ x ∈ uniqueFirstAux acc l, x ∈ acc.reverse ++ l := by
  induction l with
  | nil =>
    intro acc x hx
    simpa [uniqueFirstAux] using hx
  | cons c cs ih =>
    intro acc x hx
    unfold uniqueFirstAux at hx
    by_cases hmem : acc.contains c
    · rw [if_pos hmem] at hx
      have := ih acc x hx
      simp only [List.mem_append, List.mem_cons] at this ⊢
      tauto
    · rw [if_neg hmem] at hx
      have := ih (c :: acc) x hx
      simp only [List.reverse_cons, List.mem_append, List.mem_cons,
        List.mem_singleton] at this ⊢
      tauto

theorem mem_uniqueFirst (col : List Cell) : ∀ x ∈ uniqueFirst col, x ∈ col := by
  intro x hx
  simpa using uniqueFirstAux_subset col [] x hx

theorem matchesCell_self (u : Cell) (h : u.isNull = false) : matchesCell u u = true := by
  cases u with
  | num q => simp [matchesCell]
  | str s => simp [matchesCell]
  | null => simp [Cell.isNull] at h

theorem matchesCell_null (c : Cell) : matchesCell c Cell.null = false := by
  cases c <;> rfl

theorem boxTracesFor_ys_ne_nil (stCol fc : List Cell) (b : Bool)
    (hlen : fc.length = stCol.length) :
    ∀ tr ∈ boxTracesFor stCol fc b, tr.ys ≠ [] := by
  intro tr htr
  unfold boxTracesFor at htr
  obtain ⟨u, hu, rfl⟩ := List.mem_map.mp htr
  have hcnt : ¬(stCol.countP (fun c => matchesCell c u) = 0) := by
    have h2 := (List.mem_filter.mp hu).2
    simpa using h2
  have hpos : 0 < stCol.countP (fun c => matchesCell c u) := Nat.pos_of_ne_zero hcnt
  obtain ⟨a, ha, hma⟩ := List.countP_pos_iff.mp hpos
  obtain ⟨i, hi, hEq⟩ := List.mem_iff_getElem.mp ha
  have hif : i < fc.length := by rw [hlen]; exact hi
  have hiz : i < (stCol.zip fc).length := by
    rw [List.length_zip, hlen, Nat.min_self]
    exact hi
  have hy : fc[i] ∈ (stCol.zip fc).filterMap
      (fun p => if matchesCell p.1 u then some p.2 else none) := by
    refine List.mem_filterMap.mpr ⟨(stCol[i], fc[i]), ?_, ?_⟩
    · have hm := List.getElem_mem hiz
      rwa [List.getElem_zip] at hm
    · simp [hEq, hma]
  exact List.ne_nil_of_mem hy

theorem boxTracesFor_names (stCol fc : List Cell) (b : Bool) :
    (boxTracesFor stCol fc b).map (fun tr => tr.name) =
      (uniqueFirst stCol).filter (fun u => !u.isNull) := by
  unfold boxTracesFor
  rw [List.map_map]
  have hid : ((fun tr : BoxTrace => tr.name) ∘ mkBoxTrace stCol fc b) = id := rfl
  rw [hid, List.map_id]
  apply List.filter_congr
  intro u hu
  have hu' : u ∈ stCol := mem_uniqueFirst _ u hu
  cases hn : u.isNull with
  | true =>
    have hz : stCol.countP (fun c => matchesCell c u) = 0 := by
      cases u with
      | null =>
        apply List.countP_eq_zero.mpr
        intro a _
        simp [matchesCell_null]
      | num q => simp [Cell.isNull] at hn
      | str s => simp [Cell.isNull] at hn
    simp [hz, hn]
  | false =>
    have hpos : 0 < stCol.countP (fun c => matchesCell c u) :=
      List.countP_pos_iff.mpr ⟨u, hu', matchesCell_self u hn⟩
    simp [Nat.pos_iff_ne_zero.mp hpos, hn]

/-! ## Claim C6: star types with no values for a feature -/

/-- C6 counterexample.  A catalog with a single `Main Sequence` star whose
`Radius(R/Ro)` is missing: the Radius cell of the grid still receives a Box
trace for `Main Sequence` — with `[NaN]` as its `y` values — because the
builder only skips a star type when its *row subset* is empty, and never
looks at the feature values.  This refutes the claim that such a star type
contributes no box to the Radius cell. -/
theorem boxplot_null_feature_counterexample :
    createBoxplots ⟨[("Star type", [Cell.str "Main Sequence"]),
        ("Temperature (K)", [Cell.num 5000]), ("Luminosity(L/Lo)", [Cell.num 1]),
        ("Radius(R/Ro)", [Cell.null]), ("Absolute magnitude(Mv)", [Cell.num 5])]⟩ =
      Except.ok
        [[{ name := Cell.str "Main Sequence", ys := [Cell.num 5000],
            markerColor := "yellow", showlegend := true }],
         [{ name := Cell.str "Main Sequence", ys := [Cell.num 1],
            markerColor := "yellow", showlegend := false }],
         [{ name := Cell.str "Main Sequence", ys := [Cell.null],
            markerColor := "yellow", showlegend := false }],
         [{ name := Cell.str "Main Sequence", ys := [Cell.num 5],
            markerColor := "yellow", showlegend := false }]] := by
  rfl

/-- C6 amended.  The builder skips a star type only when its row subset is
empty, which happens exactly for a missing star-type value (`NaN` matches no
row); it does not filter on the feature values.  Consequently every Box trace
added to any cell has a nonempty `y` sequence of rows — but those `y` values
may all be missing: a star type whose rows are all null for a feature still
contributes a (value-less) box trace to that feature's cell. -/
theorem boxplot_no_empty_subset_amended (t : RawTable) (stCol c0 c1 c2 c3 : List Cell)
    (cells : List (List BoxTrace))
    (hst : getCol t "Star type" = some stCol)
    (h0 : getCol t "Temperature (K)" = some c0) (hl0 : c0.length = stCol.length)
    (h1 : getCol t "Luminosity(L/Lo)" = some c1) (hl1 : c1.length = stCol.length)
    (h2 : getCol t "Radius(R/Ro)" = some c2) (hl2 : c2.length = stCol.length)
    (h3 : getCol t "Absolute magnitude(Mv)" = some c3) (hl3 : c3.length = stCol.length)
    (hc : createBoxplots t = Except.ok cells) :
    ∀ cell ∈ cells, ∀ tr ∈ cell, tr.ys ≠ [] := by
  have hc' : [boxTracesFor stCol c0 true, boxTracesFor stCol c1 false,
      boxTracesFor stCol c2 false, boxTracesFor stCol c3 false] = cells := by
    simpa [createBoxplots, hst, h0, h1, h2, h3] using hc
  intro cell hcell tr htr
  rw [← hc'] at hcell
  simp only [List.mem_cons, List.not_mem_nil, or_false] at hcell
  rcases hcell with h | h | h | h
  · exact boxTracesFor_ys_ne_nil stCol c0 true hl0 tr (h ▸ htr)
  · exact boxTracesFor_ys_ne_nil stCol c1 false hl1 tr (h ▸ htr)
  · exact boxTracesFor_ys_ne_nil stCol c2 false hl2 tr (h ▸ htr)
  · exact boxTracesFor_ys_ne_nil stCol c3 false hl3 tr (h ▸ htr)

/-- Witness for C6 amended: on a concrete two-row catalog whose
`Radius(R/Ro)` column is entirely missing, the Radius-cell trace of the only
(non-missing) star type still has a nonempty `y` sequence. -/
theorem boxplot_no_empty_subset_amended_witness :
    (mkBoxTrace [Cell.str "Red Dwarf", Cell.null] [Cell.null, Cell.null] false
      (Cell.str "Red Dwarf")).ys ≠ [] :=
  boxplot_no_empty_subset_amended
    ⟨[("Star type", [Cell.str "Red Dwarf", Cell.null]),
      ("Temperature (K)", [Cell.num 1, Cell.num 2]),
      ("Luminosity(L/Lo)", [Cell.num 3, Cell.num 4]),
      ("Radius(R/Ro)", [Cell.null, Cell.null]),
      ("Absolute magnitude(Mv)", [Cell.num 5, Cell.num 6])]⟩
    [Cell.str "Red Dwarf", Cell.null]
    [Cell.num 1, Cell.num 2] [Cell.num 3, Cell.num 4]
    [Cell.null, Cell.null] [Cell.num 5, Cell.num 6]
    _ rfl rfl rfl rfl rfl rfl rfl rfl rfl rfl
    (boxTracesFor [Cell.str "Red Dwarf", Cell.null] [Cell.null, Cell.null] false)
    (by decide)
    (mkBoxTrace [Cell.str "Red Dwarf", Cell.null] [Cell.null, Cell.null] false
      (Cell.str "Red Dwarf"))
    (by decide)

/-! ## Claim C10: category order and the gray fallback in the box-plot grid -/

/-- C10.  In every cell of the box-plot grid the traces appear in the same
category order: the order of first occurrence of the (non-missing) `Star
type` values in the catalog's rows.  A star type absent from the fixed color
lookup table gets the gray fallback color rather than an error.
Confirmed. -/
theorem boxplot_category_order (t : RawTable) (stCol c0 c1 c2 c3 : List Cell)
    (cells : List (List BoxTrace))
    (hst : getCol t "Star type" = some stCol)
    (h0 : getCol t "Temperature (K)" = some c0)
    (h1 : getCol t "Luminosity(L/Lo)" = some c1)
    (h2 : getCol t "Radius(R/Ro)" = some c2)
    (h3 : getCol t "Absolute magnitude(Mv)" = some c3)
    (hc : createBoxplots t = Except.ok cells) :
    (∀ cell ∈ cells, cell.map (fun tr => tr.name) =
      (uniqueFirst stCol).filter (fun u => !u.isNull)) ∧
    (∀ cell ∈ cells, ∀ tr ∈ cell, ∀ s, tr.name = Cell.str s →
      starTypeColors.find? (fun p => p.1 == s) = none → tr.markerColor = "gray") := by
  have hc' : [boxTracesFor stCol c0 true, boxTracesFor stCol c1 false,
      boxTracesFor stCol c2 false, boxTracesFor stCol c3 false] = cells := by
    simpa [createBoxplots, hst, h0, h1, h2, h3] using hc
  constructor
  · intro cell hcell
    rw [← hc'] at hcell
    simp only [List.mem_cons, List.not_mem_nil, or_false] at hcell
    rcases hcell with h | h | h | h <;>
      rw [h] <;> exact boxTracesFor_names stCol _ _
  · intro cell hcell tr htr s hname hfind
    rw [← hc'] at hcell
    have htr' : ∃ fc b, tr ∈ boxTracesFor stCol fc b := by
      simp only [List.mem_cons, List.not_mem_nil, or_false] at hcell
      rcases hcell with h | h | h | h
      · exact ⟨c0, true, h ▸ htr⟩
      · exact ⟨c1, false, h ▸ htr⟩
      · exact ⟨c2, false, h ▸ htr⟩
      · exact ⟨c3, false, h ▸ htr⟩
    obtain ⟨fc, b, hmem⟩ := htr'
    unfold boxTracesFor at hmem
    obtain ⟨u, _, rfl⟩ := List.mem_map.mp hmem
    have hus : u = Cell.str s := hname
    subst hus
    simp [mkBoxTrace, typeColor, hfind]

/-- Witness for C10: a catalog whose first star type, `Weird`, is absent from
the color lookup table; the first cell's trace names follow first-occurrence
order and the `Weird` trace is gray. -/
theorem boxplot_category_order_witness :
    (boxTracesFor [Cell.str "Weird", Cell.str "Red Dwarf"]
        [Cell.num 1, Cell.num 2] true).map (fun tr => tr.name) =
      (uniqueFirst [Cell.str "Weird", Cell.str "Red Dwarf"]).filter
        (fun u => !u.isNull) ∧
    (mkBoxTrace [Cell.str "Weird", Cell.str "Red Dwarf"] [Cell.num 1, Cell.num 2]
      true (Cell.str "Weird")).markerColor = "gray" :=
  ⟨(boxplot_category_order
      ⟨[("Star type", [Cell.str "Weird", Cell.str "Red Dwarf"]),
        ("Temperature (K)", [Cell.num 1, Cell.num 2]),
        ("Luminosity(L/Lo)", [Cell.num 1, Cell.num 2]),
        ("Radius(R/Ro)", [Cell.num 1, Cell.num 2]),
        ("Absolute magnitude(Mv)", [Cell.num 1, Cell.num 2])]⟩
      [Cell.str "Weird", Cell.str "Red Dwarf"]
      [Cell.num 1, Cell.num 2] [Cell.num 1, Cell.num 2]
      [Cell.num 1, Cell.num 2] [Cell.num 1, Cell.num 2]
      _ rfl rfl rfl rfl rfl rfl).1
      (boxTracesFor [Cell.str "Weird", Cell.str "Red Dwarf"]
        [Cell.num 1, Cell.num 2] true)
      (List.mem_cons_self _ _),
   (boxplot_category_order
      ⟨[("Star type", [Cell.str "Weird", Cell.str "Red Dwarf"]),
        ("Temperature (K)", [Cell.num 1, Cell.num 2]),
        ("Luminosity(L/Lo)", [Cell.num 1, Cell.num 2]),
        ("Radius(R/Ro)", [Cell.num 1, Cell.num 2]),
        ("Absolute magnitude(Mv)", [Cell.num 1, Cell.num 2])]⟩
      [Cell.str "Weird", Cell.str "Red Dwarf"]
      [Cell.num 1, Cell.num 2] [Cell.num 1, Cell.num 2]
      [Cell.num 1, Cell.num 2] [Cell.num 1, Cell.num 2]
      _ rfl rfl rfl rfl rfl rfl).2
      (boxTracesFor [Cell.str "Weird", Cell.str "Red Dwarf"]
        [Cell.num 1, Cell.num 2] true)
      (List.mem_cons_self _ _)
      (mkBoxTrace [Cell.str "Weird", Cell.str "Red Dwarf"] [Cell.num 1, Cell.num 2]
        true (Cell.str "Weird"))
      (by decide) "Weird" rfl (by decide)⟩

/-! ## Claims C8 and C9: the HR diagram -/

/-- C8.  The HR-diagram builder emits one scatter point per catalog row, at
that row's `(Temperature (K), Absolute magnitude(Mv))`, and overlays the
fixed Sun reference point at exactly (5778, 4.83).  Confirmed; the witness
instantiates the spec's scenario, where the Main Sequence star's point
coincides with the Sun's coordinates. -/
theorem hr_points_and_sun (t : RawTable) (tc mc stc : List Cell) (ch : HrChart)
    (h1 : getCol t "Temperature (K)" = some tc)
    (h2 : getCol t "Absolute magnitude(Mv)" = some mc)
    (h3 : getCol t "Star type" = some stc)
    (hlen : tc.length = mc.length)
    (hch : createHrDiagram t = Except.ok ch) :
    ch.points.length = tc.length ∧
    (∀ i (hi : i < tc.length) (hi2 : i < mc.length) (hp : i < ch.points.length),
      ch.points.get ⟨i, hp⟩ = (tc.get ⟨i, hi⟩, mc.get ⟨i, hi2⟩)) ∧
    ch.sun = { name := "Sun", x := 5778, y := 4.83 } := by
  have hch' : mkHrChart tc mc [] [] = ch := by
    simpa [createHrDiagram, h1, h2, h3] using hch
  rw [← hch']
  refine ⟨?_, ?_, rfl⟩
  · simp [mkHrChart, List.length_zip, hlen]
  · intro i hi hi2 hp
    simp [mkHrChart, List.get_eq_getElem, List.getElem_zip]

/-- Witness for C8, on the spec's two-star scenario catalog: the first data
point of the diagram (the Main Sequence star) sits exactly at the Sun's
coordinates (5778, 4.83). -/
theorem hr_points_and_sun_witness :
    hrWitnessChart.points.get ⟨0, by decide⟩ = (Cell.num 5778, Cell.num 4.83) :=
  (hr_points_and_sun hrWitnessTable
    [Cell.num 5778, Cell.num 3000] [Cell.num 4.83, Cell.num 12]
    [Cell.str "Main Sequence", Cell.str "Red Dwarf"] hrWitnessChart
    rfl rfl rfl rfl rfl).2.1 0 (by decide) (by decide) (by decide)

/-- C9.  Both HR builders produce a chart whose temperature x-axis and whose
absolute-magnitude y-axis are on a descending (`autorange = reversed`)
scale.  Confirmed. -/
theorem hr_axes_reversed (t : RawTable) :
    (∀ ch, createHrDiagram t = Except.ok ch →
      ch.xaxis.autorangeReversed = true ∧ ch.yaxis.autorangeReversed = true) ∧
    (∀ ch, createHrDiagramImproved t = Except.ok ch →
      ch.xaxis.autorangeReversed = true ∧ ch.yaxis.autorangeReversed = true) := by
  constructor
  · intro ch hch
    unfold createHrDiagram at hch
    cases h1 : getCol t "Temperature (K)" with
    | none => rw [h1] at hch; simp at hch
    | some tc =>
      cases h2 : getCol t "Absolute magnitude(Mv)" with
      | none => rw [h1, h2] at hch; simp at hch
      | some mc =>
        cases h3 : getCol t "Star type" with
        | none => rw [h1, h2, h3] at hch; simp at hch
        | some stc =>
          rw [h1, h2, h3] at hch
          simp only [Except.ok.injEq] at hch
          rw [← hch]
          exact ⟨rfl, rfl⟩
  · intro ch hch
    unfold createHrDiagramImproved at hch
    cases h1 : getCol t "Temperature (K)" with
    | none => rw [h1] at hch; simp at hch
    | some tc =>
      cases h2 : getCol t "Absolute magnitude(Mv)" with
      | none => rw [h1, h2] at hch; simp at hch
      | some mc =>
        cases h3 : getCol t "Star type" with
        | none => rw [h1, h2, h3] at hch; simp at hch
        | some stc =>
          rw [h1, h2, h3] at hch
          simp only [Except.ok.injEq] at hch
          rw [← hch]
          exact ⟨rfl, rfl⟩

/-- Witness for C9: both axes of both concrete HR charts over the scenario
catalog are reversed. -/
theorem hr_axes_reversed_witness :
    hrWitnessChart.xaxis.autorangeReversed = true ∧
    hrWitnessChart.yaxis.autorangeReversed = true ∧
    hrWitnessChartImproved.xaxis.autorangeReversed = true ∧
    hrWitnessChartImproved.yaxis.autorangeReversed = true :=
  ⟨((hr_axes_reversed hrWitnessTable).1 hrWitnessChart rfl).1,
   ((hr_axes_reversed hrWitnessTable).1 hrWitnessChart rfl).2,
   ((hr_axes_reversed hrWitnessTable).2 hrWitnessChartImproved rfl).1,
   ((hr_axes_reversed hrWitnessTable).2 hrWitnessChartImproved rfl).2⟩

end Astro
